import Mathlib

/-
Verification of the httplog configuration module (config.go).

The module owns a process-wide options record, normalizes it in
Configure, installs an attribute-rewrite hook (the replaceAttrs
closure) and a minimum severity filter on the selected backend.
This file gives a shallow embedding of that code: Go structs become
Lean structures, time.Duration becomes an Int count of nanoseconds,
the mutable global state updated by Configure becomes an explicit
ConfigState record, and the Go panic reachable from Value.Time is
made explicit with Option.
-/

namespace httplog

/-- Go stdlib constant time.RFC3339Nano, the reference layout string. -/
def RFC3339Nano : String := "2006-01-02T15:04:05.999999999Z07:00"

/-- Go stdlib constant time.Minute as a Duration: time.Duration is an
int64 count of nanoseconds, so a minute is 60e9. -/
def Minute : Int := 60000000000

/-- slog.LevelKey, the key the slog handlers use for the built-in
level attribute of a record. -/
def slogLevelKey : String := "level"

/-- slog.TimeKey, the key the slog handlers use for the built-in
time attribute of a record. -/
def slogTimeKey : String := "time"

/-- slog.SourceKey, the key the slog handlers use for the built-in
source-location attribute of a record. -/
def slogSourceKey : String := "source"

/-- slog.Level, the severity of a log event (slog encodes these as
integers Debug = -4, Info = 0, Warn = 4, Error = 8; only the four
named severities are ever produced by this module). -/
inductive SlogLevel where
  | debug
  | info
  | warn
  | error
deriving DecidableEq, Repr

/-- The Options struct of config.go. Go's time.Duration field is an
Int of nanoseconds, the Tags map is an association list, and nil
slices are empty lists. -/
structure Options where
  LogLevel : String
  LevelFieldName : String
  JSON : Bool
  Concise : Bool
  Tags : List (String × String)
  SkipHeaders : List String
  QuietDownRoutes : List String
  QuietDownPeriod : Int
  TimeFieldFormat : String
  TimeFieldName : String
  SourceFieldName : String
deriving DecidableEq, Repr

/-- The initial value of the package-level DefaultOptions variable
(config.go lines 11-22); the omitted SourceFieldName is Go's zero
value, the empty string. -/
def DefaultOptions : Options :=
  { LogLevel := "info"
    LevelFieldName := "level"
    JSON := false
    Concise := false
    Tags := []
    SkipHeaders := []
    QuietDownRoutes := []
    QuietDownPeriod := 0
    TimeFieldFormat := RFC3339Nano
    TimeFieldName := "timestamp"
    SourceFieldName := "" }

/-- A slog.Value: the dynamic value of an attribute, tagged by kind.
A time value carries the instant as an Int of nanoseconds since the
epoch, which is all the embedding needs of time.Time. -/
inductive Value where
  | str : String → Value
  | int : Int → Value
  | bool : Bool → Value
  | time : Int → Value
deriving DecidableEq, Repr

/-- slog.Value.Time: returns the carried instant when the value is of
time kind and otherwise panics in Go ("Value kind is ..., not Time");
the panic is modelled as none. -/
def Value.Time : Value → Option Int
  | .time t => some t
  | _ => none

/-- A slog.Attr: one key/value pair of a log record. -/
structure Attr where
  key : String
  value : Value
deriving DecidableEq, Repr

/-- parseLogLevel (config.go lines 79-92): map the string
representation of the log level to a slog.Level; anything
unrecognized falls to the default case, info. -/
def parseLogLevel (level : String) : SlogLevel :=
  match level with
  | "debug" => SlogLevel.debug
  | "info" => SlogLevel.info
  | "warn" => SlogLevel.warn
  | "error" => SlogLevel.error
  | _ => SlogLevel.info

/-- The normalization prefix of Configure (config.go lines 100-121),
applied to the local opts before it is published: default the empty
field names and time format, default QuietDownPeriod to five minutes
when quiet-down routes are configured with a zero period, and
lower-case every SkipHeaders entry in place. -/
def normalizeOptions (opts0 : Options) : Options :=
  let opts1 := if opts0.LevelFieldName = "" then { opts0 with LevelFieldName := "level" } else opts0
  let opts2 := if opts1.TimeFieldFormat = "" then { opts1 with TimeFieldFormat := RFC3339Nano } else opts1
  let opts3 := if opts2.TimeFieldName = "" then { opts2 with TimeFieldName := "timestamp" } else opts2
  let opts4 :=
    if 0 < opts3.QuietDownRoutes.length then
      if opts3.QuietDownPeriod = 0 then { opts3 with QuietDownPeriod := 5 * Minute } else opts3
    else opts3
  { opts4 with SkipHeaders := opts4.SkipHeaders.map String.toLower }

/-- The replaceAttrs closure built by Configure (config.go lines
130-143), closed over the normalized opts and parametric in the Go
stdlib time formatter (Time.Format layout rendering, an external
collaborator): switch on the attribute key; a level attribute is
re-keyed, a time attribute is re-keyed and its value reformatted to a
string (panicking, i.e. none, when the value is not of time kind), a
source attribute is re-keyed when SourceFieldName is set, and every
other attribute is returned as it came. -/
def replaceAttrs (format : Int → String → String) (opts : Options) (a : Attr) : Option Attr :=
  if a.key = slogLevelKey then
    some { a with key := opts.LevelFieldName }
  else if a.key = slogTimeKey then
    match a.value.Time with
    | some t => some { key := opts.TimeFieldName, value := Value.str (format t opts.TimeFieldFormat) }
    | none => none
  else if a.key = slogSourceKey then
    if opts.SourceFieldName ≠ "" then some { a with key := opts.SourceFieldName } else some a
  else
    some a

/-- Which stream a handler writes to: os.Stdout or os.Stderr. -/
inductive Stream where
  | stdout
  | stderr
deriving DecidableEq, Repr

/-- The output backend Configure installs: either the human-readable
pretty handler or the structured JSON handler, each writing to one
stream. -/
inductive Backend where
  | prettyHandler : Stream → Backend
  | jsonHandler : Stream → Backend
deriving DecidableEq, Repr

/-- The process-wide state Configure writes: the published
DefaultOptions variable, and the slog default logger's handler,
described by its minimum severity, AddSource flag and backend (the
handler's ReplaceAttr hook is the replaceAttrs closure over the
published options). -/
structure ConfigState where
  defaultOptions : Options
  handlerLevel : SlogLevel
  addSource : Bool
  backend : Backend
deriving DecidableEq, Repr

/-- Configure (config.go lines 96-156) as a function from the input
options to the process-wide state it publishes: normalize opts,
publish it as DefaultOptions, compute addSource from SourceFieldName,
parse the minimum severity, and select the backend (JSON handler on
stderr when opts.JSON, pretty handler on stdout otherwise). -/
def Configure (opts0 : Options) : ConfigState :=
  let opts := normalizeOptions opts0
  { defaultOptions := opts
    handlerLevel := parseLogLevel opts.LogLevel
    addSource := opts.SourceFieldName ≠ ""
    backend := if !opts.JSON then Backend.prettyHandler Stream.stdout else Backend.jsonHandler Stream.stderr }

/-- Configure as a transformer of the process-wide state: it reads no
part of the previous state (it only assigns DefaultOptions and calls
slog.SetDefault), so the resulting state depends on the new options
alone. -/
def ConfigureStep (opts : Options) (_prev : ConfigState) : ConfigState :=
  Configure opts

/-- The attribute-rewrite hook installed by Configure for a given
input options value: the replaceAttrs closure captures the local opts
variable after normalization. -/
def installedHook (format : Int → String → String) (opts : Options) : Attr → Option Attr :=
  replaceAttrs format (normalizeOptions opts)

/-- Field-by-field description of normalizeOptions. -/
theorem normalizeOptions_def (opts : Options) :
    normalizeOptions opts =
      { opts with
        LevelFieldName := if opts.LevelFieldName = "" then "level" else opts.LevelFieldName
        TimeFieldFormat := if opts.TimeFieldFormat = "" then RFC3339Nano else opts.TimeFieldFormat
        TimeFieldName := if opts.TimeFieldName = "" then "timestamp" else opts.TimeFieldName
        QuietDownPeriod :=
          if 0 < opts.QuietDownRoutes.length ∧ opts.QuietDownPeriod = 0 then 5 * Minute
          else opts.QuietDownPeriod
        SkipHeaders := opts.SkipHeaders.map String.toLower } := by
  unfold normalizeOptions
  split_ifs <;> simp_all

/-- The defaultOptions component published by Configure is the
normalized input options. -/
theorem Configure_defaultOptions (opts : Options) :
    (Configure opts).defaultOptions = normalizeOptions opts := rfl

/-- Claim C1: for every options value (and every time formatter), the
attribute-rewrite hook installed by Configure maps a level-keyed
attribute to one whose key is the configured LevelFieldName (value
untouched), and maps a time attribute to one whose key is the
configured TimeFieldName and whose value is the string obtained by
formatting the original instant with the configured TimeFieldFormat. -/
theorem installedHook_level_and_time (format : Int → String → String) (opts : Options)
    (v : Value) (t : Int) :
    installedHook format opts ⟨slogLevelKey, v⟩
      = some ⟨(Configure opts).defaultOptions.LevelFieldName, v⟩ ∧
    installedHook format opts ⟨slogTimeKey, Value.time t⟩
      = some ⟨(Configure opts).defaultOptions.TimeFieldName,
              Value.str (format t (Configure opts).defaultOptions.TimeFieldFormat)⟩ := by
  exact ⟨rfl, rfl⟩

/-- Claim C2 counterexample: the hook dispatches on the key alone, so
an ordinary string-kind user attribute that merely reuses the
built-in level key is renamed to the configured LevelFieldName — it
is not returned with key and value unchanged, refuting the claim's
kind-based quantification at a concrete input. -/
theorem installedHook_renames_user_level_attr :
    installedHook (fun _ layout => layout)
        { DefaultOptions with LevelFieldName := "severity" }
        { key := "level", value := Value.str "x" }
      = some { key := "severity", value := Value.str "x" } ∧
    ({ key := "severity", value := Value.str "x" } : Attr)
      ≠ { key := "level", value := Value.str "x" } := by
  decide

/-- Claim C2 (amended): every attribute whose KEY is none of the
built-in level, time and source keys passes through the installed
hook with key and value both unchanged; the restriction is by key,
not value kind, because the code switches on a.Key, so a user
attribute reusing a built-in key is rewritten (or, for the time key
with a non-time value, aborts) regardless of its kind. -/
theorem installedHook_passthrough (format : Int → String → String) (opts : Options) (a : Attr)
    (h1 : a.key ≠ slogLevelKey) (h2 : a.key ≠ slogTimeKey) (h3 : a.key ≠ slogSourceKey) :
    installedHook format opts a = some a := by
  simp [installedHook, replaceAttrs, h1, h2, h3]

/-- Witness for claim C2 at a concrete ordinary attribute. -/
theorem installedHook_passthrough_witness :
    ("request_id" ≠ slogLevelKey ∧ "request_id" ≠ slogTimeKey ∧ "request_id" ≠ slogSourceKey) ∧
    installedHook (fun _ layout => layout) DefaultOptions ⟨"request_id", Value.str "abc"⟩
      = some ⟨"request_id", Value.str "abc"⟩ :=
  ⟨by decide,
   installedHook_passthrough (fun _ layout => layout) DefaultOptions
     ⟨"request_id", Value.str "abc"⟩ (by decide) (by decide) (by decide)⟩

/-- Claim C3 (code behavior at the failing input): the hook aborts on
an attribute whose key is the built-in time key but whose value is
not of time kind, because the code calls Value.Time on it
unconditionally; in Go this is a panic, modelled here as none. -/
theorem installedHook_time_kind_mismatch :
    installedHook (fun _ layout => layout) DefaultOptions ⟨slogTimeKey, Value.str "noon"⟩
      = none := rfl

/-- Claim C4: the published QuietDownPeriod is five minutes exactly
when quiet-down routes are configured and the input period is zero,
and is the input period otherwise (in particular it is unchanged when
QuietDownRoutes is empty). -/
theorem configure_quietDownPeriod (opts : Options) :
    (Configure opts).defaultOptions.QuietDownPeriod =
      if opts.QuietDownRoutes ≠ [] ∧ opts.QuietDownPeriod = 0 then 5 * Minute
      else opts.QuietDownPeriod := by
  rw [Configure_defaultOptions, normalizeOptions_def]
  simp [List.length_pos]

/-- Claim C5: the published LevelFieldName, TimeFieldName and
TimeFieldFormat are the defaults "level", "timestamp" and
RFC3339Nano when the corresponding input field is empty, and the
input field itself otherwise. -/
theorem configure_field_defaults (opts : Options) :
    (Configure opts).defaultOptions.LevelFieldName
        = (if opts.LevelFieldName = "" then "level" else opts.LevelFieldName) ∧
    (Configure opts).defaultOptions.TimeFieldName
        = (if opts.TimeFieldName = "" then "timestamp" else opts.TimeFieldName) ∧
    (Configure opts).defaultOptions.TimeFieldFormat
        = (if opts.TimeFieldFormat = "" then RFC3339Nano else opts.TimeFieldFormat) := by
  rw [Configure_defaultOptions, normalizeOptions_def]
  exact ⟨rfl, rfl, rfl⟩

/-- Claim C6: the minimum severity computed by Configure is debug,
info, warn or error for the four recognized LogLevel strings, and
info for every other string. -/
theorem configure_logLevel (opts : Options) :
    (Configure opts).handlerLevel =
      if opts.LogLevel = "debug" then SlogLevel.debug
      else if opts.LogLevel = "info" then SlogLevel.info
      else if opts.LogLevel = "warn" then SlogLevel.warn
      else if opts.LogLevel = "error" then SlogLevel.error
      else SlogLevel.info := by
  show parseLogLevel (normalizeOptions opts).LogLevel = _
  rw [normalizeOptions_def]
  show parseLogLevel opts.LogLevel = _
  unfold parseLogLevel
  split <;> simp_all

/-- Claim C7: the published SkipHeaders list has the same length as
the input list and, position by position, each entry is the
lower-casing of the corresponding input entry. -/
theorem configure_skipHeaders (opts : Options) :
    (Configure opts).defaultOptions.SkipHeaders.length = opts.SkipHeaders.length ∧
    ∀ i : Nat, (Configure opts).defaultOptions.SkipHeaders[i]?
        = (opts.SkipHeaders[i]?).map String.toLower := by
  rw [Configure_defaultOptions, normalizeOptions_def]
  exact ⟨by simp, fun i => by simp⟩

/-- Claim C8: Configure installs the JSON handler writing to stderr
when the json flag is true, and the pretty handler writing to stdout
when it is false. -/
theorem configure_backend (opts : Options) :
    (Configure opts).backend =
      if opts.JSON then Backend.jsonHandler Stream.stderr
      else Backend.prettyHandler Stream.stdout := by
  show (if !(normalizeOptions opts).JSON then Backend.prettyHandler Stream.stdout
        else Backend.jsonHandler Stream.stderr) = _
  rw [normalizeOptions_def]
  cases h : opts.JSON <;> simp_all

/-- Claim C9: configuring twice leaves exactly the state of the
second call; Configure reads nothing of the previous process-wide
state, so no field of the first options value survives. -/
theorem configure_last_writer_wins (o1 o2 : Options) (s : ConfigState) :
    ConfigureStep o2 (ConfigureStep o1 s) = ConfigureStep o2 s := rfl

/-- Claim C10: the published options agree with the input on every
field outside the five normalized ones: LogLevel, JSON, Concise,
Tags, QuietDownRoutes and SourceFieldName are published exactly as
given. -/
theorem configure_frame (opts : Options) :
    (Configure opts).defaultOptions.LogLevel = opts.LogLevel ∧
    (Configure opts).defaultOptions.JSON = opts.JSON ∧
    (Configure opts).defaultOptions.Concise = opts.Concise ∧
    (Configure opts).defaultOptions.Tags = opts.Tags ∧
    (Configure opts).defaultOptions.QuietDownRoutes = opts.QuietDownRoutes ∧
    (Configure opts).defaultOptions.SourceFieldName = opts.SourceFieldName := by
  rw [Configure_defaultOptions, normalizeOptions_def]
  exact ⟨rfl, rfl, rfl, rfl, rfl, rfl⟩

end httplog
